import Mathlib

/-!
Verification development for the client-side utility module
(src/app/static/js/app.js) of the manuscript-writing web application.
The JavaScript source is shallowly embedded: JSON values become an
inductive type, the fetch request/response exchange becomes explicit
data, DOM state relevant to each feature becomes a record, and the
timer queue for toasts becomes logical time.
-/

/-- JSON values as produced by JSON.parse and consumed by JSON.stringify.
Numbers are modelled as integers, which covers every numeric literal the
module handles. -/
inductive Json where
  | null : Json
  | bool (b : Bool) : Json
  | num (n : Int) : Json
  | str (s : String) : Json
  | arr (xs : List Json) : Json
  | obj (fields : List (String × Json)) : Json

/-- Escaping applied by JSON.stringify to string content: backslash and
double quote are backslash-escaped. -/
def jsonEscapeString (s : String) : String :=
  String.join (s.data.map (fun c =>
    if c = '\\' then "\\\\"
    else if c = '"' then "\\\""
    else String.singleton c))

mutual

/-- JSON.stringify on the embedded JSON values. -/
def Json.stringify : Json → String
  | .null => "null"
  | .bool true => "true"
  | .bool false => "false"
  | .num n => toString n
  | .str s => "\"" ++ jsonEscapeString s ++ "\""
  | .arr xs => "[" ++ Json.stringifyElems xs ++ "]"
  | .obj fs => "\x7b" ++ Json.stringifyFields fs ++ "\x7d"

/-- Comma-separated serialization of array elements. -/
def Json.stringifyElems : List Json → String
  | [] => ""
  | [x] => x.stringify
  | x :: xs => x.stringify ++ "," ++ Json.stringifyElems xs

/-- Comma-separated serialization of object fields. -/
def Json.stringifyFields : List (String × Json) → String
  | [] => ""
  | [(k, v)] => "\"" ++ jsonEscapeString k ++ "\":" ++ v.stringify
  | (k, v) :: fs => "\"" ++ jsonEscapeString k ++ "\":" ++ v.stringify ++ "," ++ Json.stringifyFields fs

end

/-- JavaScript truthiness of a JSON value: null, false, 0 and the empty
string are falsy; every other JSON value is truthy. -/
def jsTruthy : Json → Bool
  | .null => false
  | .bool b => b
  | .num n => n != 0
  | .str s => s != ""
  | .arr _ => true
  | .obj _ => true

/-- Last-wins lookup of a key among object fields, matching how
JSON.parse resolves duplicate keys into a property map. -/
def lookupField (fs : List (String × Json)) (k : String) : Option Json :=
  match fs with
  | [] => none
  | (k₀, v) :: rest =>
    match lookupField rest k with
    | some w => some w
    | none => if k₀ = k then some v else none

/-- Property access v[k] on a JSON value other than null: objects yield
the field when present, everything else yields undefined (none). -/
def jsField : Json → String → Option Json
  | .obj fs, k => lookupField fs k
  | _, _ => none

mutual

/-- JavaScript ToString on a JSON value, as applied by the Error
constructor to a non-string message. -/
def jsToString : Json → String
  | .null => "null"
  | .bool true => "true"
  | .bool false => "false"
  | .num n => toString n
  | .str s => s
  | .arr xs => jsToStringElems xs
  | .obj _ => "[object Object]"

/-- Array-to-string: elements joined with commas, null elements
rendering as the empty string. -/
def jsToStringElems : List Json → String
  | [] => ""
  | [x] => jsToStringElem x
  | x :: xs => jsToStringElem x ++ "," ++ jsToStringElems xs

/-- A single array element inside Array.prototype.toString. -/
def jsToStringElem : Json → String
  | .null => ""
  | x => jsToString x

end

/-- The JavaScript a || b operator on a possibly-undefined left operand:
the left value when defined and truthy, otherwise the right value. -/
def jsOrElse (a : Option Json) (b : Json) : Json :=
  match a with
  | some v => if jsTruthy v then v else b
  | none => b

/-- The message of the Error thrown by api on a failing response:
err.error || err.message || the literal fallback, converted to a string
by the Error constructor. -/
def errMessage (err : Json) : String :=
  jsToString (jsOrElse (jsField err "error")
    (jsOrElse (jsField err "message") (Json.str "Request failed")))

/-- The request that api hands to fetch: url, method, the single
content-type header it always sets, and the optional serialized body. -/
structure FetchRequest where
  url : String
  method : String
  headers : List (String × String)
  body : Option String
deriving DecidableEq

/-- The request api issues for given arguments: the body is attached
exactly when the body argument is truthy (the source guards with
if (body)), serialized with JSON.stringify; the JSON content-type header
is always present. -/
def apiRequest (url method : String) (body : Json) : FetchRequest :=
  { url := url
    method := method
    headers := [("Content-Type", "application/json")]
    body := if jsTruthy body then some body.stringify else none }

/-- A transport response as api observes it: numeric status, status
text, and the JSON parse of the body (none when the body is not valid
JSON). -/
structure JsResponse where
  status : Nat
  statusText : String
  jsonBody : Option Json

/-- Response.ok per the fetch specification: status in the range
200 to 299. -/
def JsResponse.ok (r : JsResponse) : Bool :=
  decide (200 ≤ r.status) && decide (r.status ≤ 299)

/-- How the promise returned by api settles: resolution with a JSON
value, rejection with an Error message, rejection with a JSON parse
error (success status but invalid body), or rejection with a TypeError
(property access on a null error body). -/
inductive ApiOutcome where
  | success (j : Json) : ApiOutcome
  | failure (msg : String) : ApiOutcome
  | parseError : ApiOutcome
  | typeErrorThrown : ApiOutcome

/-- The settling of api for a given response: on a success status the
parsed body is returned as is (or the parse rejection propagates); on a
failure status the error body is the parsed JSON, with a synthesized
object carrying the status text when parsing fails, and the thrown
Error message follows errMessage. -/
def apiResult (res : JsResponse) : ApiOutcome :=
  if res.ok then
    match res.jsonBody with
    | some j => .success j
    | none => .parseError
  else
    let err : Json :=
      match res.jsonBody with
      | some j => j
      | none => .obj [("error", .str res.statusText)]
    match err with
    | .null => .typeErrorThrown
    | e => .failure (errMessage e)

/-- The DOM state the modal feature touches: the text content of the
title element, the inner HTML of the body and footer elements, and
whether the overlay element carries the hidden class. -/
structure ModalState where
  title : String
  body : String
  footer : String
  overlayHidden : Bool
deriving DecidableEq

/-- openModal: writes title, body and footer content (footerHtml is
defaulted to the empty string by the || guard when absent or empty) and
removes the hidden class from the single overlay element. -/
def openModal (title bodyHtml : String) (footerHtml : Option String) (s : ModalState) : ModalState :=
  { s with
    title := title
    body := bodyHtml
    footer := footerHtml.getD ""
    overlayHidden := false }

/-- closeModal: adds the hidden class to the overlay element. -/
def closeModal (s : ModalState) : ModalState :=
  { s with overlayHidden := true }

/-- The document-level click listener: closes the modal exactly when the
click target is the overlay element. -/
def documentClick (targetId : String) (s : ModalState) : ModalState :=
  if targetId = "modal-overlay" then closeModal s else s

/-- The document-level keydown listener: closes the modal exactly when
the key is Escape. -/
def documentKeydown (key : String) (s : ModalState) : ModalState :=
  if key = "Escape" then closeModal s else s

/-- Number of visible modal dialogs: the page has a single overlay, so
it is one when the overlay is shown and zero otherwise. -/
def visibleModalCount (s : ModalState) : Nat :=
  if s.overlayHidden then 0 else 1

/-- A toast element in the container: its message, its severity class,
and the absolute time at which its scheduled removal timer fires. -/
structure Toast where
  message : String
  severity : String
  expiry : Nat
deriving DecidableEq

/-- The toast container with logical time: the current clock and the
toasts currently appended. -/
structure ToastState where
  now : Nat
  toasts : List Toast
deriving DecidableEq

/-- showToast: creates a toast element, appends it to the container and
schedules its removal 4000 ms later via setTimeout. -/
def showToast (message severity : String) (s : ToastState) : ToastState :=
  { s with toasts := s.toasts ++ [{ message := message, severity := severity, expiry := s.now + 4000 }] }

/-- Advancing the clock to time t: every removal timer due by t fires,
each removing exactly its own toast element. -/
def advanceTo (t : Nat) (s : ToastState) : ToastState :=
  { now := t, toasts := s.toasts.filter (fun tst => decide (t < tst.expiry)) }

/-- The client-side state the theme feature touches: the value stored
under the theme key in localStorage (none when the key is absent) and
the data-theme attribute on the document element (none when the
attribute is not set). -/
structure ThemeState where
  storage : Option String
  dataTheme : Option String
deriving DecidableEq

/-- The JavaScript a || b operator on the result of localStorage.getItem:
the stored string when present and non-empty, otherwise the default. -/
def jsOrString (a : Option String) (b : String) : String :=
  match a with
  | some v => if v = "" then b else v
  | none => b

/-- The DOMContentLoaded theme initialization: reads the stored theme,
defaults to dark, and applies it as the data-theme attribute. -/
def initTheme (s : ThemeState) : ThemeState :=
  { s with dataTheme := some (jsOrString s.storage "dark") }

/-- The theme-toggle click handler: reads the current data-theme
attribute, maps dark to light and everything else to dark, applies the
new value and persists it. -/
def toggleTheme (s : ThemeState) : ThemeState :=
  let next := if s.dataTheme = some "dark" then "light" else "dark"
  { storage := some next, dataTheme := some next }

/-- The no-break space character U+00A0, which the HTML text
serializer also escapes. -/
def nbspChar : Char := Char.ofNat 160

/-- The per-character escaping performed by assigning textContent and
reading innerHTML back: the HTML text-serialization escapes ampersand,
the angle brackets and the no-break space. -/
def escChars (c : Char) : List Char :=
  if c = '&' then ['&', 'a', 'm', 'p', ';']
  else if c = '<' then ['&', 'l', 't', ';']
  else if c = '>' then ['&', 'g', 't', ';']
  else if c = nbspChar then ['&', 'n', 'b', 's', 'p', ';']
  else [c]

/-- The escaping of a whole character list, one character at a time. -/
def escList : List Char → List Char
  | [] => []
  | c :: cs => escChars c ++ escList cs

/-- escHtml: assigns the string as the text content of a fresh div and
returns the div inner HTML, i.e. the HTML text-serialization of the
string. -/
def escHtml (s : String) : String :=
  (escList s.data).asString

/-- Parsing a character list as HTML element text content: the four
character references the serializer emits decode to their characters,
everything else stands for itself. -/
def renderTextChars (l : List Char) : List Char :=
  match l with
  | [] => []
  | c :: rest =>
    if c = '&' then
      if rest.take 4 = ['a', 'm', 'p', ';'] then '&' :: renderTextChars (rest.drop 4)
      else if rest.take 3 = ['l', 't', ';'] then '<' :: renderTextChars (rest.drop 3)
      else if rest.take 3 = ['g', 't', ';'] then '>' :: renderTextChars (rest.drop 3)
      else if rest.take 5 = ['n', 'b', 's', 'p', ';'] then nbspChar :: renderTextChars (rest.drop 5)
      else c :: renderTextChars rest
    else c :: renderTextChars rest
termination_by l.length
decreasing_by
  all_goals simp [List.length_drop]
  all_goals omega

/-- The text a browser displays when a markup-free string is rendered as
element content. -/
def renderText (s : String) : String :=
  (renderTextChars s.data).asString

/-- Unfolding lemma for renderTextChars on a non-empty list. -/
theorem renderTextChars_cons (c : Char) (rest : List Char) :
    renderTextChars (c :: rest) =
      if c = '&' then
        if rest.take 4 = ['a', 'm', 'p', ';'] then '&' :: renderTextChars (rest.drop 4)
        else if rest.take 3 = ['l', 't', ';'] then '<' :: renderTextChars (rest.drop 3)
        else if rest.take 3 = ['g', 't', ';'] then '>' :: renderTextChars (rest.drop 3)
        else if rest.take 5 = ['n', 'b', 's', 'p', ';'] then nbspChar :: renderTextChars (rest.drop 5)
        else c :: renderTextChars rest
      else c :: renderTextChars rest := by
  rw [renderTextChars]

/-- Rendering the escaped form of a character list recovers the list. -/
theorem renderTextChars_escList (cs : List Char) : renderTextChars (escList cs) = cs := by
  induction cs with
  | nil =>
    show renderTextChars [] = []
    rw [renderTextChars]
  | cons c cs ih =>
    rw [escList]
    by_cases h₁ : c = '&'
    · subst h₁
      show renderTextChars ('&' :: 'a' :: 'm' :: 'p' :: ';' :: escList cs) = '&' :: cs
      rw [renderTextChars_cons]
      simp [ih]
    · by_cases h₂ : c = '<'
      · subst h₂
        show renderTextChars ('&' :: 'l' :: 't' :: ';' :: escList cs) = '<' :: cs
        rw [renderTextChars_cons]
        simp [ih]
      · by_cases h₃ : c = '>'
        · subst h₃
          show renderTextChars ('&' :: 'g' :: 't' :: ';' :: escList cs) = '>' :: cs
          rw [renderTextChars_cons]
          simp [ih]
        · by_cases h₄ : c = nbspChar
          · subst h₄
            show renderTextChars ('&' :: 'n' :: 'b' :: 's' :: 'p' :: ';' :: escList cs) = nbspChar :: cs
            rw [renderTextChars_cons]
            simp [ih]
          · have he : escChars c = [c] := by simp [escChars, h₁, h₂, h₃, h₄]
            rw [he]
            show renderTextChars (c :: escList cs) = c :: cs
            rw [renderTextChars_cons]
            simp [h₁, ih]

/-- The escaping of a single character never contains a left angle
bracket. -/
theorem escChars_no_lt (c : Char) : '<' ∉ escChars c := by
  by_cases h₁ : c = '&'
  · simp [escChars, h₁]
  · by_cases h₂ : c = '<'
    · simp [escChars, h₁, h₂]
    · by_cases h₃ : c = '>'
      · simp [escChars, h₁, h₂, h₃]
      · by_cases h₄ : c = nbspChar
        · rw [h₄]
          decide
        · simp [escChars, h₁, h₂, h₃, h₄]
          exact fun he => h₂ he.symm

/-- The escaped form of a character list never contains a left angle
bracket. -/
theorem escList_no_lt (cs : List Char) : '<' ∉ escList cs := by
  induction cs with
  | nil => simp [escList]
  | cons c cs ih =>
    rw [escList]
    intro hmem
    rcases List.mem_append.mp hmem with hc | hc
    · exact escChars_no_lt c hc
    · exact ih hc

/-- Claim C1: for every api call whose response has a success status and
whose body parses as JSON, the promise resolves with exactly the parsed
JSON body of the response, with no transformation applied. -/
theorem c1_success_returns_parsed_body (res : JsResponse) (j : Json)
    (hok : res.ok = true) (hb : res.jsonBody = some j) :
    apiResult res = ApiOutcome.success j := by
  simp [apiResult, hok, hb]

/-- Witness for C1: a 201 response with a concrete JSON body resolves to
exactly that body. -/
theorem c1_success_returns_parsed_body_witness :
    apiResult { status := 201, statusText := "Created",
                jsonBody := some (Json.obj [("id", Json.num 1), ("title", Json.str "Draft One")]) }
      = ApiOutcome.success (Json.obj [("id", Json.num 1), ("title", Json.str "Draft One")]) :=
  c1_success_returns_parsed_body _ _ rfl rfl

/-- The Error constructor leaves a string message unchanged. -/
theorem jsToString_str (s : String) : jsToString (Json.str s) = s := by
  simp [jsToString]

/-- An undefined left operand of || yields the right operand. -/
theorem jsOrElse_undefined (b : Json) : jsOrElse none b = b := rfl

/-- A falsy left operand of || yields the right operand. -/
theorem jsOrElse_falsy {v : Json} (h : jsTruthy v = false) (b : Json) :
    jsOrElse (some v) b = b := by
  simp [jsOrElse, h]

/-- A truthy left operand of || yields itself. -/
theorem jsOrElse_truthy {v : Json} (h : jsTruthy v = true) (b : Json) :
    jsOrElse (some v) b = v := by
  simp [jsOrElse, h]

/-- errMessage on an object body, written through the field lookups. -/
theorem errMessage_obj (fs : List (String × Json)) :
    errMessage (Json.obj fs)
      = jsToString (jsOrElse (lookupField fs "error")
          (jsOrElse (lookupField fs "message") (Json.str "Request failed"))) := rfl

/-- Counterexample to C2 as stated: a failing response whose JSON body
is an object carrying an error field with the empty string rejects with
the fallback message, not with that field value. -/
theorem c2_counterexample :
    apiResult { status := 400, statusText := "Bad Request",
                jsonBody := some (Json.obj [("error", Json.str "")]) }
        = ApiOutcome.failure "Request failed"
      ∧ "Request failed" ≠ "" := by
  constructor
  · simp [apiResult, JsResponse.ok, errMessage, jsField, lookupField, jsOrElse, jsTruthy,
      jsToString]
  · decide

/-- Claim C2 (amended): the rejection message of a failing api call
follows JavaScript truthiness, not mere field presence: a truthy error
field wins (string-converted by the Error constructor), else a truthy
message field, else the literal Request failed; when the body is not
valid JSON the status text is substituted as the error field, so the
message equals the status text exactly when the status text is
non-empty. -/
theorem c2_error_message_chain :
    (∀ res fs, res.ok = false → res.jsonBody = some (Json.obj fs) →
      ((∀ v, lookupField fs "error" = some v → jsTruthy v = true →
          apiResult res = ApiOutcome.failure (jsToString v))
        ∧ (∀ w, (∀ v, lookupField fs "error" = some v → jsTruthy v = false) →
            lookupField fs "message" = some w → jsTruthy w = true →
            apiResult res = ApiOutcome.failure (jsToString w))
        ∧ ((∀ v, lookupField fs "error" = some v → jsTruthy v = false) →
            (∀ w, lookupField fs "message" = some w → jsTruthy w = false) →
            apiResult res = ApiOutcome.failure "Request failed")))
    ∧ (∀ res, res.ok = false → res.jsonBody = none →
        (res.statusText ≠ "" → apiResult res = ApiOutcome.failure res.statusText)
        ∧ (res.statusText = "" → apiResult res = ApiOutcome.failure "Request failed")) := by
  constructor
  · intro res fs hok hb
    have hres : apiResult res = ApiOutcome.failure (errMessage (Json.obj fs)) := by
      simp [apiResult, hok, hb]
    have hdropErr : ∀ v, lookupField fs "error" = some v → jsTruthy v = false →
        errMessage (Json.obj fs)
          = jsToString (jsOrElse (lookupField fs "message") (Json.str "Request failed")) := by
      intro v hv htv
      rw [errMessage_obj, hv, jsOrElse_falsy htv]
    have hm : (∀ w, lookupField fs "message" = some w → jsTruthy w = false) →
        jsOrElse (lookupField fs "message") (Json.str "Request failed")
          = Json.str "Request failed" := by
      intro hmfal
      cases hcase : lookupField fs "message" with
      | none => rw [jsOrElse_undefined]
      | some w => rw [jsOrElse_falsy (hmfal w hcase)]
    refine ⟨?_, ?_, ?_⟩
    · intro v hv htv
      rw [hres, errMessage_obj, hv, jsOrElse_truthy htv]
    · intro w hfal hw htw
      rw [hres]
      cases hcase : lookupField fs "error" with
      | none =>
        rw [errMessage_obj, hcase, jsOrElse_undefined, hw, jsOrElse_truthy htw]
      | some v =>
        rw [hdropErr v hcase (hfal v hcase), hw, jsOrElse_truthy htw]
    · intro hfal hmfal
      rw [hres]
      cases hcase : lookupField fs "error" with
      | none =>
        rw [errMessage_obj, hcase, jsOrElse_undefined, hm hmfal, jsToString_str]
      | some v =>
        rw [hdropErr v hcase (hfal v hcase), hm hmfal, jsToString_str]
  · intro res hok hb
    have hres : apiResult res
        = ApiOutcome.failure (errMessage (Json.obj [("error", Json.str res.statusText)])) := by
      simp [apiResult, hok, hb]
    have hlk : lookupField [("error", Json.str res.statusText)] "error"
        = some (Json.str res.statusText) := by
      simp [lookupField]
    have hmsg : lookupField [("error", Json.str res.statusText)] "message" = none := by
      simp [lookupField]
    constructor
    · intro hst
      have htr : jsTruthy (Json.str res.statusText) = true := by
        simp [jsTruthy, hst]
      rw [hres, errMessage_obj, hlk, jsOrElse_truthy htr, jsToString_str]
    · intro hst
      have hfa : jsTruthy (Json.str res.statusText) = false := by
        simp [jsTruthy, hst]
      rw [hres, errMessage_obj, hlk, jsOrElse_falsy hfa, hmsg, jsOrElse_undefined,
        jsToString_str]

/-- Witness for C2 (amended): a 400 with a truthy error field rejects
with that field value, and a 500 with an unparseable body rejects with
the status text. -/
theorem c2_error_message_chain_witness :
    apiResult { status := 400, statusText := "Bad Request",
                jsonBody := some (Json.obj [("error", Json.str "title is required")]) }
        = ApiOutcome.failure "title is required"
      ∧ apiResult { status := 500, statusText := "Internal Server Error", jsonBody := none }
        = ApiOutcome.failure "Internal Server Error" := by
  constructor
  · have h := (c2_error_message_chain.1
      { status := 400, statusText := "Bad Request",
        jsonBody := some (Json.obj [("error", Json.str "title is required")]) }
      [("error", Json.str "title is required")] rfl rfl).1
      (Json.str "title is required") rfl rfl
    rwa [jsToString_str] at h
  · exact (c2_error_message_chain.2
      { status := 500, statusText := "Internal Server Error", jsonBody := none }
      rfl rfl).1 (by decide)

/-- Counterexample to C3 as stated: the body argument 0 is present and
non-null, yet the issued request carries no body at all. -/
theorem c3_counterexample :
    (apiRequest "/api/projects" "POST" (Json.num 0)).body = none
      ∧ Json.num 0 ≠ Json.null :=
  ⟨rfl, fun h => Json.noConfusion h⟩

/-- Claim C3 (amended): for every api call whose body argument is truthy
(present and none of null, false, 0 or the empty string), the request is
issued with the body serialized by JSON.stringify and with the JSON
content-type header; the header is in fact set on every request. -/
theorem c3_truthy_body_serialized (url method : String) (body : Json)
    (h : jsTruthy body = true) :
    (apiRequest url method body).body = some body.stringify
      ∧ ("Content-Type", "application/json") ∈ (apiRequest url method body).headers := by
  constructor
  · simp [apiRequest, h]
  · simp [apiRequest]

/-- Witness for C3 (amended): a concrete POST body is serialized and the
content-type header is present. -/
theorem c3_truthy_body_serialized_witness :
    (apiRequest "/api/projects" "POST" (Json.obj [("title", Json.str "Draft One")])).body
        = some (Json.stringify (Json.obj [("title", Json.str "Draft One")]))
      ∧ ("Content-Type", "application/json")
        ∈ (apiRequest "/api/projects" "POST" (Json.obj [("title", Json.str "Draft One")])).headers :=
  c3_truthy_body_serialized _ _ _ rfl

/-- Claim C9: for every method, a falsy body argument (null, 0, false or
the empty string) results in a request issued with no body at all: body
presence is decided by JavaScript truthiness, not by null-ness. -/
theorem c9_falsy_body_omitted (url method : String) :
    (apiRequest url method Json.null).body = none
      ∧ (apiRequest url method (Json.num 0)).body = none
      ∧ (apiRequest url method (Json.bool false)).body = none
      ∧ (apiRequest url method (Json.str "")).body = none :=
  ⟨rfl, rfl, rfl, rfl⟩

/-- Claim C4: after an openModal immediately followed by a second
openModal, exactly one dialog is visible and it shows the second call's
title, body and footer; moreover in every reachable state at most one
modal dialog is visible, since the page has a single overlay element. -/
theorem c4_single_modal (s : ModalState) (t₁ b₁ : String) (f₁ : Option String)
    (t₂ b₂ : String) (f₂ : Option String) :
    visibleModalCount (openModal t₂ b₂ f₂ (openModal t₁ b₁ f₁ s)) = 1
      ∧ (openModal t₂ b₂ f₂ (openModal t₁ b₁ f₁ s)).title = t₂
      ∧ (openModal t₂ b₂ f₂ (openModal t₁ b₁ f₁ s)).body = b₂
      ∧ (openModal t₂ b₂ f₂ (openModal t₁ b₁ f₁ s)).footer = f₂.getD ""
      ∧ (∀ s₂ : ModalState, visibleModalCount s₂ ≤ 1) := by
  refine ⟨rfl, rfl, rfl, rfl, ?_⟩
  intro s₂
  unfold visibleModalCount
  split <;> omega

/-- Claim C5: when no modal dialog is open (the overlay carries the
hidden class), a backdrop click and an Escape key press each leave the
modal state unchanged: closing an already-closed modal is an idempotent
no-op. -/
theorem c5_close_when_closed_noop (s : ModalState) (h : s.overlayHidden = true)
    (targetId key : String) :
    documentClick targetId s = s ∧ documentKeydown key s = s := by
  have hc : closeModal s = s := by
    cases s
    simp_all [closeModal]
  constructor
  · unfold documentClick
    split <;> simp [hc]
  · unfold documentKeydown
    split <;> simp [hc]

/-- Witness for C5: a concrete closed state is untouched by an overlay
click and an Escape press. -/
theorem c5_close_when_closed_noop_witness :
    documentClick "modal-overlay"
        { title := "t", body := "b", footer := "", overlayHidden := true }
      = { title := "t", body := "b", footer := "", overlayHidden := true }
    ∧ documentKeydown "Escape"
        { title := "t", body := "b", footer := "", overlayHidden := true }
      = { title := "t", body := "b", footer := "", overlayHidden := true } :=
  c5_close_when_closed_noop
    { title := "t", body := "b", footer := "", overlayHidden := true }
    rfl "modal-overlay" "Escape"

/-- Claim C6: a toast self-removes exactly 4000 ms after creation: it is
present at every time strictly before its expiry, gone at every time
from its expiry on, and a firing removal timer removes only its own
toast, leaving every other unexpired toast in place. -/
theorem c6_toast_expiry (s : ToastState) (msg sev : String) (t : Nat) :
    (s.now + 4000 ≤ t →
      ({ message := msg, severity := sev, expiry := s.now + 4000 } : Toast)
        ∉ (advanceTo t (showToast msg sev s)).toasts)
    ∧ (t < s.now + 4000 →
      ({ message := msg, severity := sev, expiry := s.now + 4000 } : Toast)
        ∈ (advanceTo t (showToast msg sev s)).toasts)
    ∧ (∀ u, u ∈ s.toasts → t < u.expiry →
        u ∈ (advanceTo t (showToast msg sev s)).toasts) := by
  refine ⟨?_, ?_, ?_⟩
  · intro h hmem
    simp [advanceTo, showToast, List.mem_filter] at hmem
    omega
  · intro h
    simp [advanceTo, showToast, List.mem_filter, h]
  · intro u hu ht
    simp [advanceTo, showToast, List.mem_filter, ht]
    exact Or.inl hu

/-- Witness for C6: a toast created at time 0 is gone at time 4000 while
a concurrent toast expiring at 5000 is still present. -/
theorem c6_toast_expiry_witness :
    ({ message := "x", severity := "success", expiry := 4000 } : Toast)
        ∉ (advanceTo 4000 (showToast "x" "success"
            { now := 0, toasts := [{ message := "y", severity := "success", expiry := 5000 }] })).toasts
      ∧ ({ message := "y", severity := "success", expiry := 5000 } : Toast)
        ∈ (advanceTo 4000 (showToast "x" "success"
            { now := 0, toasts := [{ message := "y", severity := "success", expiry := 5000 }] })).toasts := by
  have h := c6_toast_expiry
    { now := 0, toasts := [{ message := "y", severity := "success", expiry := 5000 }] }
    "x" "success" 4000
  exact ⟨h.1 (by decide), h.2.2 { message := "y", severity := "success", expiry := 5000 }
    (by simp) (by decide)⟩

/-- Claim C7: the theme is initialized from durable storage with default
dark when nothing is stored and applied as the display attribute; a
toggle from dark displays and persists light, a toggle from light
displays and persists dark, and a reload re-applies the persisted
value. -/
theorem c7_theme_persistence (d : Option String) (s : ThemeState)
    (h : s.dataTheme = some "dark") :
    (initTheme { storage := none, dataTheme := d }).dataTheme = some "dark"
      ∧ (toggleTheme s).dataTheme = some "light"
      ∧ (toggleTheme s).storage = some "light"
      ∧ (initTheme { storage := (toggleTheme s).storage, dataTheme := d }).dataTheme
          = some "light"
      ∧ (∀ s₂ : ThemeState, s₂.dataTheme = some "light" →
          (toggleTheme s₂).dataTheme = some "dark"
            ∧ (toggleTheme s₂).storage = some "dark") := by
  refine ⟨rfl, ?_, ?_, ?_, ?_⟩
  · simp [toggleTheme, h]
  · simp [toggleTheme, h]
  · simp [toggleTheme, initTheme, jsOrString, h]
  · intro s₂ h₂
    constructor <;> simp [toggleTheme, h₂]

/-- Witness for C7: toggling a concrete dark state displays and persists
light. -/
theorem c7_theme_persistence_witness :
    (toggleTheme { storage := some "dark", dataTheme := some "dark" }).dataTheme = some "light"
      ∧ (toggleTheme { storage := some "dark", dataTheme := some "dark" }).storage
          = some "light" :=
  ⟨(c7_theme_persistence none { storage := some "dark", dataTheme := some "dark" } rfl).2.1,
    (c7_theme_persistence none { storage := some "dark", dataTheme := some "dark" } rfl).2.2.1⟩

/-- Claim C10: the theme mechanism does not confine the value to dark or
light: at startup any non-empty stored string is applied verbatim as the
display attribute, and a toggle maps every current value other than dark
(including values outside the pair) to dark, displayed and persisted. -/
theorem c10_theme_unconfined (v : String) (hv : v ≠ "") (d : Option String)
    (s : ThemeState) (h : s.dataTheme ≠ some "dark") :
    (initTheme { storage := some v, dataTheme := d }).dataTheme = some v
      ∧ (toggleTheme s).dataTheme = some "dark"
      ∧ (toggleTheme s).storage = some "dark" := by
  refine ⟨?_, ?_, ?_⟩ <;> simp [initTheme, jsOrString, toggleTheme, hv, h]

/-- Witness for C10: a stored value outside the pair is applied
verbatim, and toggling from it yields dark. -/
theorem c10_theme_unconfined_witness :
    (initTheme { storage := some "solarized", dataTheme := none }).dataTheme = some "solarized"
      ∧ (toggleTheme { storage := some "solarized", dataTheme := some "solarized" }).dataTheme
          = some "dark"
      ∧ (toggleTheme { storage := some "solarized", dataTheme := some "solarized" }).storage
          = some "dark" :=
  c10_theme_unconfined "solarized" (by decide) none
    { storage := some "solarized", dataTheme := some "solarized" } (by decide)

/-- Claim C8: escHtml output is safe for insertion into rendered markup:
rendering it as element content displays exactly the original string,
and it contains no left angle bracket, so untrusted content cannot open
a tag or introduce markup. -/
theorem c8_escHtml_safe (s : String) :
    renderText (escHtml s) = s ∧ '<' ∉ (escHtml s).data := by
  constructor
  · show (renderTextChars ((escList s.data).asString).data).asString = s
    rw [show ((escList s.data).asString).data = escList s.data from rfl,
      renderTextChars_escList]
    rfl
  · show '<' ∉ ((escList s.data).asString).data
    rw [show ((escList s.data).asString).data = escList s.data from rfl]
    exact escList_no_lt s.data
